/-
  Verification of the microCloud result-analysis scripts.

  Shallow embedding of the Python analysis pipeline:
    * `src/analysis/analyze_results.py`        (`extract_metrics`)
    * `src/analysis/scalability_analysis.py`   (`extract_scalability_metrics`)
    * `src/analysis/analyze_flash_crowd.py`    (`extract_flash_crowd_metrics`,
                                                `create_origin_load_reduction_table`)
    * `src/analysis/analyze_peer_behavior.py`  (`analyze_file_transfer_events`,
                                                `analyze_content_propagation_timeline`,
                                                `analyze_network_density`,
                                                `analyze_request_patterns`,
                                                `analyze_why_20_is_special`)
    * `src/analysis/plot-metrics.py`           (`plot_cache_hit_ratio_by_peers`)
    * `src/analysis/utils/graphing/plotting/analyze-multi-run.py`
                                               (`analyze_by_peer_count`)

  Modelling conventions:
    * A Python dict field that may be missing is an `Option`; `d.get(k, v)`
      is `(h : Option _).getD v`, and `d.get(k)` (returning `None`) keeps the
      `Option`.
    * Python ints are `ℤ`, floats are `ℚ` (exact arithmetic; none of the
      verified properties depends on floating-point rounding).
    * Python's truthiness (`x or y`, `if x:`) is modelled explicitly:
      `None`, `0`, `0.0` and `""` are falsy.
    * A Python `dict` built by insertion is an association list that appends
      a key only when absent; a Python `set` of tuples is a list with
      membership-guarded insertion, so its length is the set's cardinality.
    * `statistics.stdev` / `np.std` return square roots; to stay inside ℚ the
      embedding carries the squared standard deviation (`...StdSq`), which
      determines the standard deviation uniquely since both are ≥ 0: two
      standard deviations are equal iff their squares are.
-/

import Mathlib

namespace MicroCloud

/-- Python's `x or y` for an optional float `x` and a default `y`:
`None` and `0.0` are falsy, so both fall through to `y`. -/
def pyOr (x : Option ℚ) (y : ℚ) : ℚ :=
  match x with
  | none => y
  | some v => if v = 0 then y else v

/-- The `res` dict of one result record (dashboard shape: `results.microcloud`,
legacy shape: top-level `results`); only the fields the analysed code reads.
Missing fields are `none`. -/
structure RawRes where
  networkRequests? : Option ℤ := none
  peerRequests? : Option ℤ := none
  originRequests? : Option ℤ := none
  networkCacheHitRatio? : Option ℚ := none
  networkAvgLatency? : Option ℚ := none
  avgLatency? : Option ℚ := none
  totalRequests? : Option ℤ := none
  localCacheHits? : Option ℤ := none
deriving DecidableEq

/-- Embeds `analyze_results.extract_metrics`, lines 76–78 (identical in the legacy
branch, lines 116–118, and in `scalability_analysis.extract_scalability_metrics`,
lines 60–62): `network_requests = res.get('networkRequests')`, and if that is
`None`, `res.get('peerRequests', 0) + res.get('originRequests', 0)`. -/
def networkRequestsOf (res : RawRes) : ℤ :=
  match res.networkRequests? with
  | some n => n
  | none => res.peerRequests?.getD 0 + res.originRequests?.getD 0

/-- Embeds `analyze_results.extract_metrics`, lines 81–83 (same in the legacy branch
and in `extract_scalability_metrics`, lines 65–67): keep a source-supplied
`networkCacheHitRatio`; otherwise compute `(peerRequests / networkRequests) * 100`
only when `network_requests > 0`, else stay `None`. -/
def networkCacheHitRatioOpt (res : RawRes) : Option ℚ :=
  match res.networkCacheHitRatio? with
  | some v => some v
  | none =>
      if networkRequestsOf res > 0 then
        some ((res.peerRequests?.getD 0 : ℚ) / (networkRequestsOf res : ℚ) * 100)
      else
        none

/-- Embeds `analyze_results.extract_metrics`, line 86 (line 126 in the legacy branch,
line 73 of `extract_scalability_metrics`):
`avg_latency = res.get('networkAvgLatency') or res.get('avgLatency', 0)`. -/
def avgLatencyOf (res : RawRes) : ℚ :=
  pyOr res.networkAvgLatency? (res.avgLatency?.getD 0)

/-- The slice of the canonical record returned by `extract_metrics` that the
claims are about. -/
structure CanonicalMetrics where
  networkRequests : ℤ
  peerRequests : ℤ
  originRequests : ℤ
  networkCacheHitRatio : ℚ
  avgLatency : ℚ
  networkAvgLatency : ℚ
deriving DecidableEq

/-- Embeds `analyze_results.extract_metrics` (dashboard branch, lines 75–109; the
legacy branch, lines 111–149, performs the same computation on the top-level
`results` dict). The returned dict's entries:
  * `'networkRequests': network_requests`
  * `'peerRequests': res.get('peerRequests', 0)`
  * `'originRequests': res.get('originRequests', 0)`
  * `'networkCacheHitRatio': network_cache_hit_ratio or 0`
  * `'avgLatency': avg_latency`
  * `'networkAvgLatency': res.get('networkAvgLatency', avg_latency)` -/
def extract_metrics (res : RawRes) : CanonicalMetrics :=
  let network_requests := networkRequestsOf res
  let network_cache_hit_ratio := networkCacheHitRatioOpt res
  let avg_latency := avgLatencyOf res
  { networkRequests := network_requests
    peerRequests := res.peerRequests?.getD 0
    originRequests := res.originRequests?.getD 0
    networkCacheHitRatio := pyOr network_cache_hit_ratio 0
    avgLatency := avg_latency
    networkAvgLatency := res.networkAvgLatency?.getD avg_latency }

/-- The slice of `extract_scalability_metrics`' returned dict that the claims
are about (`scalability_analysis.py`, lines 69–77; it has no separate
`networkAvgLatency` output). -/
structure ScalabilityMetrics where
  networkCacheHitRatio : ℚ
  avgLatency : ℚ
  peerRequests : ℤ
  originRequests : ℤ
deriving DecidableEq

/-- Embeds `scalability_analysis.extract_scalability_metrics`, lines 52–78 (dashboard
shape):
  * `'networkCacheHitRatio': network_cache_hit_ratio or 0`
  * `'avgLatency': res.get('networkAvgLatency') or res.get('avgLatency', 0)`
  * `'peerRequests': res.get('peerRequests', 0)`
  * `'originRequests': res.get('originRequests', 0)` -/
def extract_scalability_metrics (res : RawRes) : ScalabilityMetrics :=
  let network_cache_hit_ratio := networkCacheHitRatioOpt res
  { networkCacheHitRatio := pyOr network_cache_hit_ratio 0
    avgLatency := pyOr res.networkAvgLatency? (res.avgLatency?.getD 0)
    peerRequests := res.peerRequests?.getD 0
    originRequests := res.originRequests?.getD 0 }

/-- The slice of `extract_flash_crowd_metrics` that claim C2 is about
(`analyze_flash_crowd.py`, lines 64–68 and 79–82): the microcloud-side
counters, with `microcloud_networkRequests` defaulting to
`peerRequests + originRequests` via `dict.get`'s second argument. -/
structure FlashCrowdMetrics where
  microcloud_networkRequests : ℤ
  microcloud_peerRequests : ℤ
  microcloud_originRequests : ℤ
deriving DecidableEq

/-- Embeds `analyze_flash_crowd.extract_flash_crowd_metrics`, lines 65–66 and 79–82:
`microcloud.get('networkRequests', microcloud.get('peerRequests', 0) +
microcloud.get('originRequests', 0))`. -/
def extract_flash_crowd_metrics (microcloud : RawRes) : FlashCrowdMetrics :=
  { microcloud_networkRequests :=
      microcloud.networkRequests?.getD
        (microcloud.peerRequests?.getD 0 + microcloud.originRequests?.getD 0)
    microcloud_peerRequests := microcloud.peerRequests?.getD 0
    microcloud_originRequests := microcloud.originRequests?.getD 0 }

/-! ### Event records (`analyze_peer_behavior.py`) -/

/-- One element of `fileTransferEvents`. Timestamps are epoch milliseconds. -/
structure TransferEvent where
  timestamp? : Option ℤ := none
  source? : Option String := none
  target? : Option String := none
  peerId? : Option String := none
  success? : Option Bool := none
  latency? : Option ℚ := none
  chunkIndex? : Option ℤ := none
deriving DecidableEq

/-- Embeds `event.get('source', '')`. -/
def TransferEvent.sourceStr (e : TransferEvent) : String :=
  e.source?.getD ""

/-- Embeds `event.get('target', event.get('peerId', ''))`. -/
def TransferEvent.targetStr (e : TransferEvent) : String :=
  e.target?.getD (e.peerId?.getD "")

/-- Python truthiness of `event.get('success', False)`. -/
def TransferEvent.isSuccess (e : TransferEvent) : Bool :=
  e.success?.getD false

/-! ### `analyze_file_transfer_events` (lines 150–186) -/

/-- Line 159: `successful = [e for e in transfer_events if e.get('success', False)]`. -/
def successful_transfers (transfer_events : List TransferEvent) : List TransferEvent :=
  transfer_events.filter (fun e => e.success?.getD false)

/-- Line 160: `failed = [e for e in transfer_events if not e.get('success', True)]`.
An event without a `success` field defaults to `True`, so it is in neither list. -/
def failed_transfers (transfer_events : List TransferEvent) : List TransferEvent :=
  transfer_events.filter (fun e => !(e.success?.getD true))

/-- Line 179: `len(successful) / len(transfer_events) * 100 if transfer_events
else 0` (the function has already returned an error dict for an empty list, so
the `else 0` arm is dead code kept for faithfulness). -/
def success_rate (transfer_events : List TransferEvent) : ℚ :=
  if transfer_events ≠ [] then
    ((successful_transfers transfer_events).length : ℚ)
      / (transfer_events.length : ℚ) * 100
  else 0

/-! ### `analyze_content_propagation_timeline` (lines 210–267) -/

/-- Lines 220–223: `start_time = min(e.get('timestamp', 0) for e in join_events)`
when `join_events` is non-empty, else `0`. -/
def startTimeOf (join_events : List (Option ℤ)) : ℤ :=
  match join_events.map (fun t? => t?.getD 0) with
  | [] => 0
  | t :: ts => ts.foldl min t

/-- One iteration of the loop at lines 229–243 updating `peer_content_times`
(the dict is an association list in insertion order; a key is appended only
when `target not in peer_content_times`). The recorded time is
`(timestamp - start_time) / 1000` seconds. -/
def contentStep (start_time : ℤ) (acc : List (String × ℚ)) (event : TransferEvent) :
    List (String × ℚ) :=
  if event.isSuccess then
    if event.targetStr ≠ "" ∧ (acc.lookup event.targetStr).isNone then
      acc ++ [(event.targetStr,
        ((event.timestamp?.getD 0 : ℚ) - (start_time : ℚ)) / 1000)]
    else acc
  else acc

/-- The `peer_content_times` dict after the loop at lines 229–243. -/
def peer_content_times (start_time : ℤ) (transfer_events : List TransferEvent) :
    List (String × ℚ) :=
  transfer_events.foldl (contentStep start_time) []

/-! ### `analyze_network_density` (lines 302–351) -/

/-- Contiguous-sublist test on character lists (Python's `in` on strings). -/
def charsContain (needle : List Char) : List Char → Bool
  | [] => needle.isEmpty
  | c :: rest => needle.isPrefixOf (c :: rest) || charsContain needle rest

/-- Python `'origin' in source.lower()` (`str.lower` lowercases each
character). -/
def containsOrigin (source : String) : Bool :=
  charsContain "origin".data (source.data.map Char.toLower)

/-- Adding one tuple to the Python `connections` set: a list holding each
element once, so its length is the set's cardinality. -/
def insertConn (c : String × String) (s : List (String × String)) :
    List (String × String) :=
  if c ∈ s then s else c :: s

/-- One iteration of the loop at lines 313–319: for an event with truthy
`success`, truthy `source` and `target`, and `'origin' not in source.lower()`,
add the **ordered** tuple `(source, target)` to the set. -/
def connStep (connections : List (String × String)) (event : TransferEvent) :
    List (String × String) :=
  if event.isSuccess then
    if event.sourceStr ≠ "" ∧ event.targetStr ≠ "" ∧ ¬ containsOrigin event.sourceStr then
      insertConn (event.sourceStr, event.targetStr) connections
    else connections
  else connections

/-- The `connections` set after the loop at lines 313–319. -/
def connectionsOf (transfer_events : List TransferEvent) : List (String × String) :=
  transfer_events.foldl connStep []

/-- Line 322: `num_peers = len(join_events)`. -/
def numPeersOf (join_events : List (Option ℤ)) : ℕ :=
  join_events.length

/-- Line 326: `max_connections = num_peers * (num_peers - 1) / 2 if num_peers > 1
else 0` (true division; the product is even so the value is an integer). -/
def max_connections (num_peers : ℕ) : ℚ :=
  if num_peers > 1 then (num_peers : ℚ) * ((num_peers : ℚ) - 1) / 2 else 0

/-- Line 329: `connection_density = num_connections / max_connections if
max_connections > 0 else 0`. -/
def connection_density (join_events : List (Option ℤ))
    (transfer_events : List TransferEvent) : ℚ :=
  let num_connections := (connectionsOf transfer_events).length
  let maxConns := max_connections (numPeersOf join_events)
  if maxConns > 0 then (num_connections : ℚ) / maxConns else 0

/-! ### `analyze_request_patterns` (lines 353–393) and
`create_origin_load_reduction_table` (`analyze_flash_crowd.py`, lines 279–306) -/

/-- The derived fields of `analyze_request_patterns` the claims are about. -/
structure RequestPatterns where
  p2p_efficiency : ℚ
  origin_load_reduction : ℤ
  origin_load_reduction_pct : ℚ
deriving DecidableEq

/-- Lines 361–391: counters are read with `.get(_, 0)`;
`origin_load_reduction = base['origin_requests'] - mc['origin_requests']`, and
the percentage divides by `base['origin_requests']` only when it is `> 0`,
else is `0`. `p2p_efficiency` divides by `mc['network_requests']` (read with
default `0`, not derived) only when it is `> 0`. -/
def analyze_request_patterns (microcloud baseline : RawRes) : RequestPatterns :=
  let mc_origin := microcloud.originRequests?.getD 0
  let mc_peer := microcloud.peerRequests?.getD 0
  let mc_network := microcloud.networkRequests?.getD 0
  let base_origin := baseline.originRequests?.getD 0
  { p2p_efficiency :=
      if mc_network > 0 then ((mc_peer : ℚ) / (mc_network : ℚ)) * 100 else 0
    origin_load_reduction := base_origin - mc_origin
    origin_load_reduction_pct :=
      if base_origin > 0 then
        ((base_origin : ℚ) - (mc_origin : ℚ)) / (base_origin : ℚ) * 100
      else 0 }

/-- One row of `create_origin_load_reduction_table` (`analyze_flash_crowd.py`,
lines 293–297): `reduction = baseline_requests - p2p_requests`;
`reduction_pct = reduction / baseline_requests * 100 if baseline_requests > 0
else 0`. -/
structure LoadReductionRow where
  load_reduction : ℤ
  load_reduction_pct : ℚ
deriving DecidableEq

/-- Embeds `create_origin_load_reduction_table`'s per-row computation, applied to the
`baseline_originRequests` / `microcloud_originRequests` columns produced by
`extract_flash_crowd_metrics`. -/
def origin_load_reduction_row (baseline_requests p2p_requests : ℤ) : LoadReductionRow :=
  let reduction := baseline_requests - p2p_requests
  { load_reduction := reduction
    load_reduction_pct :=
      if baseline_requests > 0 then
        (reduction : ℚ) / (baseline_requests : ℚ) * 100
      else 0 }

/-! ### `analyze_why_20_is_special`, cache-hit-ratio section (lines 523–533) -/

/-- The loop at lines 528–533: for each non-reference configuration
`(pc, hit_ratio)`, compute `diff = hit_ratio_20 - hit_ratio` and append an
insight exactly when `diff > 10`. The appended message embeds `diff` (printed
as `{diff:.1f}`), so an insight is modelled as the pair `(pc, diff)`. -/
def cache_insights (hit_ratio_20 : ℚ) (others : List (ℕ × ℚ)) : List (ℕ × ℚ) :=
  others.foldl
    (fun insights other =>
      let diff := hit_ratio_20 - other.2
      if diff > 10 then insights ++ [(other.1, diff)] else insights)
    []

/-! ### `analyze-multi-run.py` `analyze_by_peer_count` (lines 39–71) and
`plot-metrics.py` `plot_cache_hit_ratio_by_peers` (lines 32–48) -/

/-- One record of a multi-run results file; the fields the two plotting
scripts read with `.get(_, 0)`. -/
structure MultiRunResult where
  peersSimulated? : Option ℤ := none
  cacheHitRatio? : Option ℚ := none
  avgLatency? : Option ℚ := none
  bandwidthSaved? : Option ℚ := none
  jainFairnessIndex? : Option ℚ := none
  latencyImprovement? : Option ℚ := none
deriving DecidableEq

/-- Embeds `result.get('peersSimulated', 0)` — the grouping key. -/
def MultiRunResult.peerKey (r : MultiRunResult) : ℤ :=
  r.peersSimulated?.getD 0

/-- The per-key value list built by the `defaultdict` loop (lines 49–55 of
`analyze-multi-run.py`, lines 36–42 of `plot-metrics.py`): the values of
`metric` for the records whose key is `k`, in input order. -/
def groupedMetric (metric : MultiRunResult → ℚ) (results : List MultiRunResult)
    (k : ℤ) : List ℚ :=
  (results.filter (fun r => r.peerKey == k)).map metric

/-- Embeds `statistics.mean` as `sum / count` (exact on rationals). -/
def meanOf (xs : List ℚ) : ℚ :=
  xs.sum / (xs.length : ℚ)

/-- Sum of squared deviations from the mean, shared by both standard
deviations. -/
def sqDevSum (xs : List ℚ) : ℚ :=
  (xs.map (fun x => (x - meanOf xs) ^ 2)).sum

/-- Square of `statistics.stdev` (sample standard deviation, Bessel's
correction: divide by `n - 1`). -/
def sampleStdSq (xs : List ℚ) : ℚ :=
  sqDevSum xs / ((xs.length : ℚ) - 1)

/-- Square of `np.std` with its default `ddof=0` (population standard
deviation: divide by `n`). -/
def npStdSq (xs : List ℚ) : ℚ :=
  sqDevSum xs / (xs.length : ℚ)

/-- The per-key statistics dict built at lines 58–69 of
`analyze-multi-run.py`; standard deviations are carried squared (see the file
header). -/
structure PeerCountStats where
  count : ℕ
  avg_cache_hit_ratio : ℚ
  std_cache_hit_ratio_sq : ℚ
  avg_latency : ℚ
  std_latency_sq : ℚ
  avg_bandwidth_saved : ℚ
  avg_fairness : ℚ
  avg_latency_improvement : ℚ
deriving DecidableEq

/-- Embeds `analyze_by_peer_count` restricted to one key `k`: `none` when no record
has that key (the `defaultdict` never creates the entry), otherwise the stats
dict of lines 60–69, with `statistics.stdev(...) if len(...) > 1 else 0`. -/
def analyze_by_peer_count (results : List MultiRunResult) (k : ℤ) :
    Option PeerCountStats :=
  let cache_hit_ratios := groupedMetric (fun r => r.cacheHitRatio?.getD 0) results k
  let latencies := groupedMetric (fun r => r.avgLatency?.getD 0) results k
  let bandwidth_saved := groupedMetric (fun r => r.bandwidthSaved?.getD 0) results k
  let fairness_indices := groupedMetric (fun r => r.jainFairnessIndex?.getD 0) results k
  let latency_improvements :=
    groupedMetric (fun r => r.latencyImprovement?.getD 0) results k
  if cache_hit_ratios.isEmpty then none
  else some
    { count := cache_hit_ratios.length
      avg_cache_hit_ratio := meanOf cache_hit_ratios
      std_cache_hit_ratio_sq :=
        if cache_hit_ratios.length > 1 then sampleStdSq cache_hit_ratios else 0
      avg_latency := meanOf latencies
      std_latency_sq := if latencies.length > 1 then sampleStdSq latencies else 0
      avg_bandwidth_saved := meanOf bandwidth_saved
      avg_fairness := meanOf fairness_indices
      avg_latency_improvement := meanOf latency_improvements }

/-- The error-bar value of `plot_cache_hit_ratio_by_peers` for key `k`
(`plot-metrics.py`, line 48): `np.std(values) if len(values) > 1 else 0`,
carried squared. -/
def plotCacheStdSq (results : List MultiRunResult) (k : ℤ) : ℚ :=
  if (groupedMetric (fun r => r.cacheHitRatio?.getD 0) results k).length > 1 then
    npStdSq (groupedMetric (fun r => r.cacheHitRatio?.getD 0) results k)
  else 0

/-! ## Theorems -/

/-- C1 — counterexample. A record that supplies no counters and no
`networkCacheHitRatio` has derived `networkRequests = 0`, yet both
normalization functions set `networkCacheHitRatio` to `0.0` (the trailing
`or 0`), not to an "undefined" sentinel, so the claim's "never to 0.0" is
false. -/
theorem C1_counterexample :
    networkRequestsOf ({} : RawRes) = 0 ∧
    ({} : RawRes).networkCacheHitRatio? = none ∧
    (extract_metrics {}).networkCacheHitRatio = 0 ∧
    (extract_scalability_metrics {}).networkCacheHitRatio = 0 :=
  ⟨rfl, rfl, rfl, rfl⟩

/-- C1 — amended: when the derived `networkRequests` is `0`, the normalized
`networkCacheHitRatio` is the source-supplied value if present, and otherwise
`0.0` — the final `or 0` collapses the missing-value marker to zero, so a
missing ratio is indistinguishable from a measured zero hit rate (in both
`extract_metrics` and `extract_scalability_metrics`). -/
theorem C1_theorem (res : RawRes) (h : networkRequestsOf res = 0)
    (habsent : res.networkCacheHitRatio? = none) :
    (extract_metrics res).networkCacheHitRatio = 0 ∧
    (extract_scalability_metrics res).networkCacheHitRatio = 0 := by
  have hopt : networkCacheHitRatioOpt res = none := by
    unfold networkCacheHitRatioOpt
    rw [habsent, h]
    simp
  constructor
  · simp [extract_metrics, hopt, pyOr]
  · simp [extract_scalability_metrics, hopt, pyOr]

/-- C1 — witness for the amended theorem at the all-absent record. -/
theorem C1_witness :
    (extract_metrics {}).networkCacheHitRatio = 0 ∧
    (extract_scalability_metrics {}).networkCacheHitRatio = 0 :=
  C1_theorem {} rfl rfl

/-- C2 — counterexample. A record supplying `networkRequests = 10` and
`peerRequests = 3` but no `originRequests` normalizes to
`networkRequests = 10 ≠ 3 + 0 = peerRequests + originRequests`: the supplied
`networkRequests` is kept verbatim and the missing counter defaults to `0`
instead of being derived, in both `extract_metrics` and
`extract_flash_crowd_metrics`. -/
theorem C2_counterexample :
    (extract_metrics { networkRequests? := some 10, peerRequests? := some 3 }).networkRequests ≠
      (extract_metrics { networkRequests? := some 10, peerRequests? := some 3 }).peerRequests +
      (extract_metrics { networkRequests? := some 10, peerRequests? := some 3 }).originRequests ∧
    (extract_flash_crowd_metrics
        { networkRequests? := some 10, peerRequests? := some 3 }).microcloud_networkRequests ≠
      (extract_flash_crowd_metrics
        { networkRequests? := some 10, peerRequests? := some 3 }).microcloud_peerRequests +
      (extract_flash_crowd_metrics
        { networkRequests? := some 10, peerRequests? := some 3 }).microcloud_originRequests := by
  constructor <;> decide

/-- C2 — amended: `networkRequests == peerRequests + originRequests` holds
after normalization whenever the source **omits** `networkRequests` (it is then
derived as the sum of the defaulted counters, in both `extract_metrics` and
`extract_flash_crowd_metrics`); a source-supplied `networkRequests` is kept
verbatim and a missing `peerRequests`/`originRequests` defaults to `0` rather
than being derived, so the identity can fail when `networkRequests` is supplied
together with an absent (or inconsistent) counter. -/
theorem C2_theorem (res : RawRes) (h : res.networkRequests? = none) :
    (extract_metrics res).networkRequests =
      (extract_metrics res).peerRequests + (extract_metrics res).originRequests ∧
    (extract_flash_crowd_metrics res).microcloud_networkRequests =
      (extract_flash_crowd_metrics res).microcloud_peerRequests +
      (extract_flash_crowd_metrics res).microcloud_originRequests := by
  constructor
  · simp [extract_metrics, networkRequestsOf, h]
  · simp [extract_flash_crowd_metrics, h]

/-- C2 — witness for the amended theorem at a record with only
`peerRequests = 3` and `originRequests = 4` supplied. -/
theorem C2_witness :
    (extract_metrics { peerRequests? := some 3, originRequests? := some 4 }).networkRequests =
      (extract_metrics { peerRequests? := some 3, originRequests? := some 4 }).peerRequests +
      (extract_metrics { peerRequests? := some 3, originRequests? := some 4 }).originRequests ∧
    (extract_flash_crowd_metrics
        { peerRequests? := some 3, originRequests? := some 4 }).microcloud_networkRequests =
      (extract_flash_crowd_metrics
        { peerRequests? := some 3, originRequests? := some 4 }).microcloud_peerRequests +
      (extract_flash_crowd_metrics
        { peerRequests? := some 3, originRequests? := some 4 }).microcloud_originRequests :=
  C2_theorem { peerRequests? := some 3, originRequests? := some 4 } rfl

/-- C4 — counterexample. A record with `networkAvgLatency` present and equal
to `0.0` and `avgLatency = 5`: Python's `or` treats the present `0.0` as
falsy, so the network-preferred comparison latency becomes `5`, i.e. the
fallback is taken even though the network-scoped latency is present, and the
measured `0.0` is **not** preserved (same in `extract_scalability_metrics`). -/
theorem C4_counterexample :
    ({ networkAvgLatency? := some 0, avgLatency? := some 5 } : RawRes).networkAvgLatency? =
      some 0 ∧
    (extract_metrics { networkAvgLatency? := some 0, avgLatency? := some 5 }).avgLatency = 5 ∧
    (extract_scalability_metrics
      { networkAvgLatency? := some 0, avgLatency? := some 5 }).avgLatency = 5 ∧
    (5 : ℚ) ≠ 0 := by
  refine ⟨rfl, rfl, rfl, by norm_num⟩

/-- C4 — amended: the network-preferred comparison latency (the `avgLatency`
output of `extract_metrics` and of `extract_scalability_metrics`) equals the
source's `networkAvgLatency` when that is present **and nonzero**; when it is
absent **or present as `0.0`** (Python falsiness of `or`), the value falls
back to `avgLatency` (default `0`). A present `networkAvgLatency` of `0.0` is
therefore replaced, not preserved, in the comparison latency. -/
theorem C4_theorem (res : RawRes) :
    (res.networkAvgLatency? = none →
      (extract_metrics res).avgLatency = res.avgLatency?.getD 0 ∧
      (extract_scalability_metrics res).avgLatency = res.avgLatency?.getD 0) ∧
    (∀ v : ℚ, res.networkAvgLatency? = some v → v ≠ 0 →
      (extract_metrics res).avgLatency = v ∧
      (extract_scalability_metrics res).avgLatency = v) ∧
    (res.networkAvgLatency? = some 0 →
      (extract_metrics res).avgLatency = res.avgLatency?.getD 0 ∧
      (extract_scalability_metrics res).avgLatency = res.avgLatency?.getD 0) := by
  refine ⟨fun h => ?_, fun v h hv => ?_, fun h => ?_⟩
  · constructor <;>
      simp [extract_metrics, extract_scalability_metrics, avgLatencyOf, pyOr, h]
  · constructor <;>
      simp [extract_metrics, extract_scalability_metrics, avgLatencyOf, pyOr, h, hv]
  · constructor <;>
      simp [extract_metrics, extract_scalability_metrics, avgLatencyOf, pyOr, h]

/-- C4 — witness for the amended theorem: a record with
`networkAvgLatency = 7` keeps `7` as its comparison latency. -/
theorem C4_witness :
    (extract_metrics { networkAvgLatency? := some 7, avgLatency? := some 5 }).avgLatency = 7 ∧
    (extract_scalability_metrics
      { networkAvgLatency? := some 7, avgLatency? := some 5 }).avgLatency = 7 :=
  (C4_theorem { networkAvgLatency? := some 7, avgLatency? := some 5 }).2.1
    7 rfl (by norm_num)

/-- C7 — origin load reduction: `origin_load_reduction` is the plain
difference of the baseline and P2P origin-request counters,
`origin_load_reduction_pct` is `100 * reduction / baseline` exactly when the
baseline counter is positive and `0` otherwise (total functions — no division
by zero is ever attempted), in both `analyze_request_patterns` and
`create_origin_load_reduction_table`; on the claim's scenario
(baseline `originRequests = 1000`, P2P `originRequests = 200`) the results are
`800` and `80.0`. -/
theorem C7_theorem (microcloud baseline : RawRes) (b p : ℤ) :
    ((analyze_request_patterns microcloud baseline).origin_load_reduction =
      baseline.originRequests?.getD 0 - microcloud.originRequests?.getD 0) ∧
    (0 < baseline.originRequests?.getD 0 →
      (analyze_request_patterns microcloud baseline).origin_load_reduction_pct =
        100 * ((baseline.originRequests?.getD 0 -
          microcloud.originRequests?.getD 0 : ℤ) : ℚ) /
          ((baseline.originRequests?.getD 0 : ℤ) : ℚ)) ∧
    (baseline.originRequests?.getD 0 ≤ 0 →
      (analyze_request_patterns microcloud baseline).origin_load_reduction_pct = 0) ∧
    ((origin_load_reduction_row b p).load_reduction = b - p) ∧
    (0 < b → (origin_load_reduction_row b p).load_reduction_pct =
      100 * ((b - p : ℤ) : ℚ) / (b : ℚ)) ∧
    (b ≤ 0 → (origin_load_reduction_row b p).load_reduction_pct = 0) ∧
    ((analyze_request_patterns { originRequests? := some 200, peerRequests? := some 800 }
        { originRequests? := some 1000 }).origin_load_reduction = 800) ∧
    ((analyze_request_patterns { originRequests? := some 200, peerRequests? := some 800 }
        { originRequests? := some 1000 }).origin_load_reduction_pct = 80) ∧
    ((origin_load_reduction_row 1000 200).load_reduction = 800) ∧
    ((origin_load_reduction_row 1000 200).load_reduction_pct = 80) := by
  refine ⟨rfl, fun hb => ?_, fun hb => ?_, rfl, fun hb => ?_, fun hb => ?_,
    rfl, by norm_num [analyze_request_patterns], rfl,
    by norm_num [origin_load_reduction_row]⟩
  · simp only [analyze_request_patterns, if_pos hb]
    push_cast
    ring
  · simp only [analyze_request_patterns, if_neg (not_lt.mpr hb)]
  · simp only [origin_load_reduction_row, if_pos hb]
    push_cast
    ring
  · simp only [origin_load_reduction_row, if_neg (not_lt.mpr hb)]

/-- C7 — witness: the theorem instantiated at the claim's scenario records. -/
theorem C7_witness :
    (analyze_request_patterns { originRequests? := some 200, peerRequests? := some 800 }
       { originRequests? := some 1000 }).origin_load_reduction_pct =
      100 * ((1000 - 200 : ℤ) : ℚ) / ((1000 : ℤ) : ℚ) :=
  (C7_theorem { originRequests? := some 200, peerRequests? := some 800 }
      { originRequests? := some 1000 } 1000 200).2.1 (by norm_num)

/-- Membership in the insight list built by the fold of `cache_insights`,
with a generalized accumulator. -/
lemma mem_cache_insights_foldl (ref : ℚ) (others : List (ℕ × ℚ))
    (acc : List (ℕ × ℚ)) (pc : ℕ) (d : ℚ) :
    ((pc, d) ∈ others.foldl
      (fun insights other =>
        let diff := ref - other.2
        if diff > 10 then insights ++ [(other.1, diff)] else insights) acc) ↔
    ((pc, d) ∈ acc ∨ ((pc, ref - d) ∈ others ∧ d > 10)) := by
  induction others generalizing acc with
  | nil => simp
  | cons o t ih =>
    simp only [List.foldl_cons, ih, List.mem_cons]
    by_cases h : ref - o.2 > 10
    · simp only [if_pos h, List.mem_append, List.mem_singleton]
      constructor
      · rintro (⟨hacc | heq⟩ | ht)
        · exact Or.inl hacc
        · obtain ⟨h1, h2⟩ := Prod.mk.injEq _ _ _ _ ▸ heq
          refine Or.inr ⟨Or.inl ?_, ?_⟩
          · have : ref - d = o.2 := by rw [h2]; ring
            rw [h1, this]
          · rw [h2]; exact h
        · exact Or.inr ⟨Or.inr ht.1, ht.2⟩
      · rintro (hacc | ⟨heq | ht, hd⟩)
        · exact Or.inl (Or.inl hacc)
        · obtain ⟨h1, h2⟩ := Prod.mk.injEq _ _ _ _ ▸ heq
          refine Or.inl (Or.inr ?_)
          have : d = ref - o.2 := by rw [← h2]; ring
          rw [h1, this]
        · exact Or.inr ⟨ht, hd⟩
    · simp only [if_neg h]
      constructor
      · rintro (hacc | ht)
        · exact Or.inl hacc
        · exact Or.inr ⟨Or.inr ht.1, ht.2⟩
      · rintro (hacc | ⟨heq | ht, hd⟩)
        · exact Or.inl hacc
        · obtain ⟨h1, h2⟩ := Prod.mk.injEq _ _ _ _ ▸ heq
          exfalso
          apply h
          have : ref - o.2 = d := by rw [← h2]; ring
          rw [this]; exact hd
        · exact Or.inr ⟨ht, hd⟩

/-- C8 — the cache-hit-ratio insight flag: a non-reference configuration
`(pc, hitRatio)` produces an insight exactly when
`reference − hitRatio > 10` (absolute points), and the insight carries that
difference as its magnitude. On the claim's family (reference `85`, 100 peers
at `60`, 500 peers at `30`) both configurations are flagged, with distinct
magnitudes `25` and `55`. -/
theorem C8_theorem :
    cache_insights 85 [(100, 60), (500, 30)] = [(100, 25), (500, 55)] ∧
    (25 : ℚ) ≠ 55 ∧
    ∀ (ref : ℚ) (others : List (ℕ × ℚ)) (pc : ℕ) (d : ℚ),
      ((pc, d) ∈ cache_insights ref others ↔ ((pc, ref - d) ∈ others ∧ d > 10)) := by
  refine ⟨by norm_num [cache_insights], by norm_num, fun ref others pc d => ?_⟩
  unfold cache_insights
  rw [mem_cache_insights_foldl]
  simp

/-- C8 — witness: the membership characterization applied at the claim's
500-peer configuration, whose flagged magnitude is `55`. -/
theorem C8_witness :
    (500, (55 : ℚ)) ∈ cache_insights 85 [(100, 60), (500, 30)] :=
  (C8_theorem.2.2 85 [(100, 60), (500, 30)] 500 55).mpr ⟨by norm_num, by norm_num⟩

/-- Counting lemma for `analyze_file_transfer_events`: per event, membership
in `successful` (`success` truthy) and `failed` (`success` present and
falsy) is exclusive, and an event lacking the `success` field is in
neither. -/
lemma transfer_counts (transfer_events : List TransferEvent) :
    ((successful_transfers transfer_events).length +
       (failed_transfers transfer_events).length ≤ transfer_events.length) ∧
    ((successful_transfers transfer_events).length +
       (failed_transfers transfer_events).length = transfer_events.length ↔
     ∀ e ∈ transfer_events, e.success? ≠ none) := by
  induction transfer_events with
  | nil => simp [successful_transfers, failed_transfers]
  | cons e t ih =>
    obtain ⟨ih1, ih2⟩ := ih
    rcases he : e.success? with _ | b
    · have hs : successful_transfers (e :: t) = successful_transfers t := by
        simp [successful_transfers, List.filter_cons, he]
      have hf : failed_transfers (e :: t) = failed_transfers t := by
        simp [failed_transfers, List.filter_cons, he]
      rw [hs, hf]
      constructor
      · simpa using Nat.le_succ_of_le ih1
      · simp only [List.length_cons, List.mem_cons]
        constructor
        · intro h
          omega
        · intro h
          exact absurd he (h e (Or.inl rfl))
    · cases b
      · have hs : successful_transfers (e :: t) = successful_transfers t := by
          simp [successful_transfers, List.filter_cons, he]
        have hf : failed_transfers (e :: t) = e :: failed_transfers t := by
          simp [failed_transfers, List.filter_cons, he]
        rw [hs, hf]
        simp only [List.length_cons, List.mem_cons]
        constructor
        · omega
        · rw [show (successful_transfers t).length + ((failed_transfers t).length + 1) =
              (successful_transfers t).length + (failed_transfers t).length + 1 by omega,
            Nat.add_right_cancel_iff, ih2]
          constructor
          · rintro h e' (rfl | he')
            · rw [he]; exact Option.noConfusion
            · exact h e' he'
          · intro h e' he'
            exact h e' (Or.inr he')
      · have hs : successful_transfers (e :: t) = e :: successful_transfers t := by
          simp [successful_transfers, List.filter_cons, he]
        have hf : failed_transfers (e :: t) = failed_transfers t := by
          simp [failed_transfers, List.filter_cons, he]
        rw [hs, hf]
        simp only [List.length_cons, List.mem_cons]
        constructor
        · omega
        · rw [show (successful_transfers t).length + 1 + (failed_transfers t).length =
              (successful_transfers t).length + (failed_transfers t).length + 1 by omega,
            Nat.add_right_cancel_iff, ih2]
          constructor
          · rintro h e' (rfl | he')
            · rw [he]; exact Option.noConfusion
            · exact h e' he'
          · intro h e' he'
            exact h e' (Or.inr he')

/-- C10 — for every non-empty transfer-event list,
`successful_transfers + failed_transfers ≤ total_transfers` (an event without
a `success` field counts in the total but in neither part), with equality
exactly when every event carries a `success` field, and
`success_rate ∈ [0, 100]`. -/
theorem C10_theorem (transfer_events : List TransferEvent)
    (hne : transfer_events ≠ []) :
    ((successful_transfers transfer_events).length +
       (failed_transfers transfer_events).length ≤ transfer_events.length) ∧
    ((successful_transfers transfer_events).length +
       (failed_transfers transfer_events).length = transfer_events.length ↔
     ∀ e ∈ transfer_events, e.success? ≠ none) ∧
    (0 ≤ success_rate transfer_events) ∧
    (success_rate transfer_events ≤ 100) := by
  obtain ⟨h1, h2⟩ := transfer_counts transfer_events
  refine ⟨h1, h2, ?_, ?_⟩
  all_goals
    have hlen : 0 < transfer_events.length := List.length_pos.mpr hne
    have hslen : (successful_transfers transfer_events).length ≤
        transfer_events.length := List.length_filter_le _ _
    have hlenQ : (0 : ℚ) < (transfer_events.length : ℚ) := by exact_mod_cast hlen
    rw [success_rate, if_pos hne]
  · positivity
  · have hdiv : ((successful_transfers transfer_events).length : ℚ) /
        (transfer_events.length : ℚ) ≤ 1 := by
      rw [div_le_one hlenQ]
      exact_mod_cast hslen
    calc ((successful_transfers transfer_events).length : ℚ) /
          (transfer_events.length : ℚ) * 100
        ≤ 1 * 100 := by
          apply mul_le_mul_of_nonneg_right hdiv
          norm_num
      _ = 100 := by norm_num

/-- C10 — witness: a two-event list (one successful event, one event with no
`success` field). -/
theorem C10_witness :
    ((successful_transfers [{ success? := some true }, {}]).length +
       (failed_transfers [{ success? := some true }, {}]).length ≤
       ([{ success? := some true }, {}] : List TransferEvent).length) ∧
    (0 ≤ success_rate [{ success? := some true }, {}]) ∧
    (success_rate [{ success? := some true }, {}] ≤ 100) :=
  ⟨(C10_theorem [{ success? := some true }, {}] (by simp)).1,
   (C10_theorem [{ success? := some true }, {}] (by simp)).2.2.1,
   (C10_theorem [{ success? := some true }, {}] (by simp)).2.2.2⟩

/-- Inserting a tuple that is already in the `connections` set leaves it
unchanged. -/
lemma insertConn_mem {c : String × String} {s : List (String × String)}
    (h : c ∈ s) : insertConn c s = s := by
  simp [insertConn, h]

/-- C3 — counterexample. Two join events and two successful transfers between
the same pair of peers in opposite directions: the code stores **ordered**
`(source, target)` tuples, so the reversed transfer adds a second connection,
and `connectionDensity = 2 / C(2,2) = 2 > 1` even though `numPeers = 2 > 1`,
refuting both the "unordered, either direction" deduplication and the
`[0, 1]` density bound. -/
theorem C3_counterexample :
    numPeersOf [some 0, some 0] = 2 ∧
    (connectionsOf
      [{ success? := some true, source? := some "a", target? := some "b" },
       { success? := some true, source? := some "b", target? := some "a" }]).length = 2 ∧
    connection_density [some 0, some 0]
      [{ success? := some true, source? := some "a", target? := some "b" },
       { success? := some true, source? := some "b", target? := some "a" }] = 2 ∧
    ¬ ((2 : ℚ) ≤ 1) := by
  refine ⟨rfl, by decide, ?_, by norm_num⟩
  have h2 : (connectionsOf
      [{ success? := some true, source? := some "a", target? := some "b" },
       { success? := some true, source? := some "b", target? := some "a" }]).length = 2 := by
    decide
  rw [connection_density, h2]
  norm_num [max_connections, numPeersOf]

/-- C3 — amended: the `connections` set holds deduplicated **ordered**
`(source, target)` tuples: a repeated successful transfer between the same
pair in the same direction does not increase the connection count, but a
reversed-direction transfer counts separately, so `connectionDensity` can
exceed `1`. `connectionDensity ≥ 0` always, and `connectionDensity = 0`
whenever `numPeers ≤ 1`. -/
theorem C3_theorem :
    (∀ (transfer_events : List TransferEvent) (e : TransferEvent),
      (e.sourceStr, e.targetStr) ∈ connectionsOf transfer_events →
      connectionsOf (transfer_events ++ [e]) = connectionsOf transfer_events) ∧
    (∀ (join_events : List (Option ℤ)) (transfer_events : List TransferEvent),
      numPeersOf join_events ≤ 1 →
      connection_density join_events transfer_events = 0) ∧
    (∀ (join_events : List (Option ℤ)) (transfer_events : List TransferEvent),
      0 ≤ connection_density join_events transfer_events) := by
  refine ⟨fun evs e hmem => ?_, fun joins evs h => ?_, fun joins evs => ?_⟩
  · rw [connectionsOf, List.foldl_append, List.foldl_cons, List.foldl_nil,
      ← connectionsOf, connStep]
    by_cases hsucc : e.isSuccess = true
    · rw [if_pos hsucc]
      by_cases hcond : e.sourceStr ≠ "" ∧ e.targetStr ≠ "" ∧ ¬ containsOrigin e.sourceStr = true
      · rw [if_pos hcond]
        exact insertConn_mem hmem
      · rw [if_neg hcond]
    · rw [if_neg hsucc]
  · have hmax : max_connections (numPeersOf joins) = 0 := by
      rw [max_connections, if_neg]
      omega
    rw [connection_density, hmax]
    norm_num
  · rw [connection_density]
    split
    · rename_i hpos
      positivity
    · exact le_refl 0

/-- C3 — witness: a duplicate same-direction transfer does not change the
connection set, and a single-join-event record has density `0`. -/
theorem C3_witness :
    connectionsOf
      ([{ success? := some true, source? := some "a", target? := some "b" }] ++
       [{ success? := some true, source? := some "a", target? := some "b" }]) =
      connectionsOf
        [{ success? := some true, source? := some "a", target? := some "b" }] ∧
    connection_density [some 0] [] = 0 :=
  ⟨C3_theorem.1 [{ success? := some true, source? := some "a", target? := some "b" }]
      { success? := some true, source? := some "a", target? := some "b" } (by decide),
   C3_theorem.2.1 [some 0] [] (by decide)⟩

/-- Looking a key up in an extended association list still finds the binding
present on the left. -/
lemma lookup_append_some {l l' : List (String × ℚ)} {t : String} {v : ℚ}
    (h : l.lookup t = some v) : (l ++ l').lookup t = some v := by
  induction l with
  | nil => simp [List.lookup] at h
  | cons p rest ih =>
    obtain ⟨k, w⟩ := p
    rw [List.cons_append]
    cases hbeq : (t == k) <;>
      simp only [List.lookup, hbeq] at h ⊢
    · exact ih h
    · exact h

/-- One step of the `peer_content_times` loop never changes an existing
binding (a key is only appended when absent). -/
lemma contentStep_preserves (start_time : ℤ) (acc : List (String × ℚ))
    (e : TransferEvent) {t : String} {v : ℚ} (h : acc.lookup t = some v) :
    (contentStep start_time acc e).lookup t = some v := by
  rw [contentStep]
  split
  · split
    · exact lookup_append_some h
    · exact h
  · exact h

/-- Folding further events over the `peer_content_times` loop preserves every
existing binding. -/
lemma contentFold_preserves (start_time : ℤ) (evs : List TransferEvent)
    (acc : List (String × ℚ)) {t : String} {v : ℚ} (h : acc.lookup t = some v) :
    (evs.foldl (contentStep start_time) acc).lookup t = some v := by
  induction evs generalizing acc with
  | nil => exact h
  | cons e rest ih => exact ih _ (contentStep_preserves start_time acc e h)

/-- C6 — first-arrival idempotence: once a target has a recorded
content-arrival time in `peer_content_times`, appending any further transfer
events (duplicates, later re-transfers, anything) leaves that target's time
unchanged; on the claim's scenario (peer `A` receives content at `t = 5 s`
and again at `t = 9 s`), the recorded time is `5`. -/
theorem C6_theorem :
    (∀ (start_time : ℤ) (evs evs' : List TransferEvent) (t : String) (v : ℚ),
      (peer_content_times start_time evs).lookup t = some v →
      (peer_content_times start_time (evs ++ evs')).lookup t = some v) ∧
    (peer_content_times 0
      [{ timestamp? := some 5000, success? := some true, target? := some "A" },
       { timestamp? := some 9000, success? := some true, target? := some "A" }]).lookup "A" =
      some 5 := by
  constructor
  · intro start_time evs evs' t v h
    rw [peer_content_times, List.foldl_append, ← peer_content_times]
    exact contentFold_preserves start_time evs' _ h
  · norm_num [peer_content_times, contentStep, TransferEvent.isSuccess,
      TransferEvent.targetStr, List.lookup]

/-- C6 — witness: appending the `t = 9 s` duplicate transfer to the list that
already recorded peer `A` at `t = 5 s` keeps the recorded time `5`. -/
theorem C6_witness :
    (peer_content_times 0
      ([{ timestamp? := some 5000, success? := some true, target? := some "A" }] ++
       [{ timestamp? := some 9000, success? := some true, target? := some "A" }])).lookup "A" =
      some 5 :=
  C6_theorem.1 0
    [{ timestamp? := some 5000, success? := some true, target? := some "A" }]
    [{ timestamp? := some 9000, success? := some true, target? := some "A" }]
    "A" 5
    (by norm_num [peer_content_times, contentStep, TransferEvent.isSuccess,
      TransferEvent.targetStr, List.lookup])

/-- The mean is invariant under permutation of the sample. -/
lemma meanOf_perm {xs ys : List ℚ} (h : xs.Perm ys) : meanOf xs = meanOf ys := by
  rw [meanOf, meanOf, h.sum_eq, h.length_eq]

/-- The sum of squared deviations is invariant under permutation of the
sample. -/
lemma sqDevSum_perm {xs ys : List ℚ} (h : xs.Perm ys) : sqDevSum xs = sqDevSum ys := by
  rw [sqDevSum, sqDevSum, meanOf_perm h]
  exact (h.map _).sum_eq

/-- The sample variance is invariant under permutation of the sample. -/
lemma sampleStdSq_perm {xs ys : List ℚ} (h : xs.Perm ys) :
    sampleStdSq xs = sampleStdSq ys := by
  rw [sampleStdSq, sampleStdSq, sqDevSum_perm h, h.length_eq]

/-- Permuting the input records permutes each per-key metric list. -/
lemma groupedMetric_perm (metric : MultiRunResult → ℚ)
    {results1 results2 : List MultiRunResult} (h : results1.Perm results2) (k : ℤ) :
    (groupedMetric metric results1 k).Perm (groupedMetric metric results2 k) :=
  (h.filter _).map metric

/-- C9 — aggregation is order-independent: permuting the input record list
leaves the per-key `analyze_by_peer_count` statistics (count, means, standard
deviations) unchanged for every key. -/
theorem C9_theorem (results1 results2 : List MultiRunResult)
    (h : results1.Perm results2) (k : ℤ) :
    analyze_by_peer_count results1 k = analyze_by_peer_count results2 k := by
  have hch := groupedMetric_perm (fun r => r.cacheHitRatio?.getD 0) h k
  have hlat := groupedMetric_perm (fun r => r.avgLatency?.getD 0) h k
  have hbw := groupedMetric_perm (fun r => r.bandwidthSaved?.getD 0) h k
  have hfi := groupedMetric_perm (fun r => r.jainFairnessIndex?.getD 0) h k
  have hli := groupedMetric_perm (fun r => r.latencyImprovement?.getD 0) h k
  have hempty :
      (groupedMetric (fun r => r.cacheHitRatio?.getD 0) results1 k).isEmpty =
      (groupedMetric (fun r => r.cacheHitRatio?.getD 0) results2 k).isEmpty := by
    rw [Bool.eq_iff_iff, List.isEmpty_iff_length_eq_zero,
      List.isEmpty_iff_length_eq_zero, hch.length_eq]
  rw [analyze_by_peer_count, analyze_by_peer_count, hempty, meanOf_perm hch,
    meanOf_perm hlat, meanOf_perm hbw, meanOf_perm hfi, meanOf_perm hli,
    sampleStdSq_perm hch, sampleStdSq_perm hlat, hch.length_eq, hlat.length_eq]

/-- C9 — witness: swapping two records with the same key leaves the key's
statistics unchanged. -/
theorem C9_witness :
    analyze_by_peer_count
      [{ peersSimulated? := some 5, cacheHitRatio? := some 10 },
       { peersSimulated? := some 5, cacheHitRatio? := some 20 }] 5 =
    analyze_by_peer_count
      [{ peersSimulated? := some 5, cacheHitRatio? := some 20 },
       { peersSimulated? := some 5, cacheHitRatio? := some 10 }] 5 :=
  C9_theorem _ _
    (List.Perm.swap { peersSimulated? := some 5, cacheHitRatio? := some 20 }
      { peersSimulated? := some 5, cacheHitRatio? := some 10 } [])
    5

/-- C5 — counterexample. Two records under the same key with
`cacheHitRatio` values `0` and `2`: `plot_cache_hit_ratio_by_peers` reports
`np.std` (population standard deviation, here `√1`), which differs from the
sample standard deviation with Bessel's correction (`√2`), so the claim that
the reported stddev uses Bessel's correction at its cited
`plot-metrics.py` location is false (squares compared; both roots are ≥ 0). -/
theorem C5_counterexample :
    (groupedMetric (fun r => r.cacheHitRatio?.getD 0)
      [{ peersSimulated? := some 5, cacheHitRatio? := some 0 },
       { peersSimulated? := some 5, cacheHitRatio? := some 2 }] 5).length = 2 ∧
    plotCacheStdSq
      [{ peersSimulated? := some 5, cacheHitRatio? := some 0 },
       { peersSimulated? := some 5, cacheHitRatio? := some 2 }] 5 ≠
    sampleStdSq (groupedMetric (fun r => r.cacheHitRatio?.getD 0)
      [{ peersSimulated? := some 5, cacheHitRatio? := some 0 },
       { peersSimulated? := some 5, cacheHitRatio? := some 2 }] 5) := by
  constructor
  · decide
  · have hg : groupedMetric (fun r => r.cacheHitRatio?.getD 0)
        [{ peersSimulated? := some 5, cacheHitRatio? := some 0 },
         { peersSimulated? := some 5, cacheHitRatio? := some 2 }] 5 = [0, 2] := by
      decide
    rw [plotCacheStdSq]
    simp only [hg]
    norm_num [npStdSq, sampleStdSq, sqDevSum, meanOf]

/-- C5 — amended: `analyze_by_peer_count` (analyze-multi-run.py) reports the
sample standard deviation with Bessel's correction (squared stddev times
`count − 1` equals the sum of squared deviations) when `count > 1` and `0`
when `count ≤ 1`; `plot_cache_hit_ratio_by_peers` (plot-metrics.py) instead
reports `np.std`, the **population** standard deviation (squared stddev times
`count` equals the sum of squared deviations) when `count > 1`, and `0` when
`count ≤ 1`. In both, a group with exactly one record has stddev `0`. -/
theorem C5_theorem (results : List MultiRunResult) (k : ℤ) (stats : PeerCountStats) :
    (analyze_by_peer_count results k = some stats →
      (stats.count ≤ 1 → stats.std_cache_hit_ratio_sq = 0) ∧
      (1 < stats.count →
        stats.std_cache_hit_ratio_sq * ((stats.count : ℚ) - 1) =
          sqDevSum (groupedMetric (fun r => r.cacheHitRatio?.getD 0) results k))) ∧
    ((groupedMetric (fun r => r.cacheHitRatio?.getD 0) results k).length ≤ 1 →
      plotCacheStdSq results k = 0) ∧
    (1 < (groupedMetric (fun r => r.cacheHitRatio?.getD 0) results k).length →
      plotCacheStdSq results k *
        ((groupedMetric (fun r => r.cacheHitRatio?.getD 0) results k).length : ℚ) =
        sqDevSum (groupedMetric (fun r => r.cacheHitRatio?.getD 0) results k)) := by
  refine ⟨fun h => ?_, fun h => ?_, fun h => ?_⟩
  · rw [analyze_by_peer_count] at h
    split at h
    · exact absurd h (by simp)
    · rw [Option.some_inj] at h
      subst h
      constructor
      · intro hle
        simp only at hle ⊢
        rw [if_neg]
        omega
      · intro hgt
        simp only at hgt ⊢
        rw [if_pos hgt, sampleStdSq, div_mul_cancel₀]
        have h2 : (2 : ℚ) ≤
            ((groupedMetric (fun r => r.cacheHitRatio?.getD 0) results k).length : ℚ) := by
          exact_mod_cast hgt
        intro hzero
        rw [sub_eq_zero] at hzero
        rw [hzero] at h2
        norm_num at h2
  · rw [plotCacheStdSq]
    rw [if_neg]
    omega
  · rw [plotCacheStdSq]
    rw [if_pos h, npStdSq, div_mul_cancel₀]
    have h2 : (2 : ℚ) ≤
        ((groupedMetric (fun r => r.cacheHitRatio?.getD 0) results k).length : ℚ) := by
      exact_mod_cast h
    intro hzero
    rw [hzero] at h2
    norm_num at h2

/-- C5 — witness: the population-stddev identity of
`plot_cache_hit_ratio_by_peers` at the two-record group of the
counterexample. -/
theorem C5_witness :
    plotCacheStdSq
      [{ peersSimulated? := some 5, cacheHitRatio? := some 0 },
       { peersSimulated? := some 5, cacheHitRatio? := some 2 }] 5 *
      ((groupedMetric (fun r => r.cacheHitRatio?.getD 0)
        [{ peersSimulated? := some 5, cacheHitRatio? := some 0 },
         { peersSimulated? := some 5, cacheHitRatio? := some 2 }] 5).length : ℚ) =
    sqDevSum (groupedMetric (fun r => r.cacheHitRatio?.getD 0)
      [{ peersSimulated? := some 5, cacheHitRatio? := some 0 },
       { peersSimulated? := some 5, cacheHitRatio? := some 2 }] 5) :=
  (C5_theorem
    [{ peersSimulated? := some 5, cacheHitRatio? := some 0 },
     { peersSimulated? := some 5, cacheHitRatio? := some 2 }] 5
    ⟨0, 0, 0, 0, 0, 0, 0, 0⟩).2.2 (by decide)

end MicroCloud
